import Mathlib

/-!
Verification of the configuration-loader program in
`src/examples/rust-build/src/main.rs`.

The program reads one command-line argument (a JSON configuration file
path), parses the file with `serde_json`, resolves an optional
`parameter_1` (default `"default_value"`) and a mandatory `parameter_2`,
logs the resolved values, and exits 0 on success or 1 on any failure.

The embedding below translates the Rust source into Lean:
* `Json` mirrors `serde_json::Value` (JSON numbers are modelled by `Int`;
  no claim involves a floating-point number).
* `Json.render` mirrors the `Display` impl of `serde_json::Value`, i.e.
  compact JSON serialization, which is what the `{}` format specifier in
  the `info!` lines produces.
* `Json.get` mirrors `Value::get` with a string index: key lookup on an
  object, `None` on every other variant.
* The filesystem is modelled by `FileData`: a path maps to a missing
  file, a file whose bytes are not valid UTF-8, or UTF-8 text.  In Rust,
  `File::open` fails on a missing file and `read_to_string` fails with
  an `io::Error` (kind `InvalidData`) on invalid UTF-8; `serde_json`
  is only reached for UTF-8 text.
* `load_config` mirrors the Rust `load_config`; the JSON parser
  (`serde_json::from_str`, a library function outside this repository)
  is a parameter `from_str`.
* `processConfig` is the part of `main` after a successful load;
  `mainRun` is `main` itself, returning the emitted log lines and the
  process exit code.
-/

/-- `serde_json::Value`, with numbers restricted to integers. -/
inductive Json where
  | null : Json
  | bool (b : Bool) : Json
  | num (n : Int) : Json
  | str (s : String) : Json
  | arr (items : List Json) : Json
  | obj (entries : List (String × Json)) : Json

/-- One character of a JSON string, escaped as `serde_json` escapes it:
`\"`, `\\`, `\b`, `\f`, `\n`, `\r`, `\t`, and `\u00XX` (lowercase hex)
for the remaining control characters. -/
def escapeChar (c : Char) : String :=
  if c = '"' then "\\\""
  else if c = '\\' then "\\\\"
  else if c = '\x08' then "\\b"
  else if c = '\x0c' then "\\f"
  else if c = '\n' then "\\n"
  else if c = '\r' then "\\r"
  else if c = '\t' then "\\t"
  else if c.toNat < 32 then
    let hexDigit := fun (n : Nat) =>
      if n < 10 then Char.ofNat (48 + n) else Char.ofNat (87 + n)
    "\\u00" ++ String.singleton (hexDigit (c.toNat / 16))
      ++ String.singleton (hexDigit (c.toNat % 16))
  else String.singleton c

/-- A JSON string literal as `serde_json` serializes it. -/
def escapeString (s : String) : String :=
  "\"" ++ String.join (s.toList.map escapeChar) ++ "\""

mutual

/-- Compact JSON serialization of a value, as produced by the `Display`
impl of `serde_json::Value` (used by the `{}` format specifier in the
program's `info!` lines). -/
def Json.render : Json → String
  | .null => "null"
  | .bool true => "true"
  | .bool false => "false"
  | .num n => toString n
  | .str s => escapeString s
  | .arr items => "[" ++ Json.renderItems items ++ "]"
  | .obj entries => "\x7b" ++ Json.renderEntries entries ++ "\x7d"

/-- Comma-separated serialization of array elements. -/
def Json.renderItems : List Json → String
  | [] => ""
  | [v] => Json.render v
  | v :: rest => Json.render v ++ "," ++ Json.renderItems rest

/-- Comma-separated serialization of object entries. -/
def Json.renderEntries : List (String × Json) → String
  | [] => ""
  | [(k, v)] => escapeString k ++ ":" ++ Json.render v
  | (k, v) :: rest =>
      escapeString k ++ ":" ++ Json.render v ++ "," ++ Json.renderEntries rest

end

/-- `Value::get` with a `&str` index: key lookup when the value is an
object, `None` for every other variant. -/
def Json.get : Json → String → Option Json
  | .obj entries, key => lookupEntry entries key
  | _, _ => none
where
  /-- First-match association-list lookup, as `Map::get`. -/
  lookupEntry : List (String × Json) → String → Option Json
    | [], _ => none
    | (k, v) :: rest, key => if k = key then some v else lookupEntry rest key

/-- Whether a value is a JSON object (the only variant on which a string
index can succeed). -/
def Json.isObj : Json → Bool
  | .obj _ => true
  | _ => false

/-- What the filesystem holds at a given path: no readable file, a file
whose bytes are not valid UTF-8, or a UTF-8 text file with the given
contents. -/
inductive FileData where
  | missing : FileData
  | notUtf8 : FileData
  | text (contents : String) : FileData
deriving DecidableEq

/-- The error returned by `load_config`, tagged by which library
produced it: `ioErr` wraps a `std::io::Error` (from `File::open` or
`read_to_string`), `parseErr` wraps a `serde_json::Error`. -/
inductive LoadErr where
  | ioErr (msg : String) : LoadErr
  | parseErr (msg : String) : LoadErr
deriving DecidableEq

/-- The `Display` text of a `LoadErr`, as interpolated into the
`"Failed to load configuration: {}"` error line. -/
def LoadErr.message : LoadErr → String
  | .ioErr msg => msg
  | .parseErr msg => msg

/-- `load_config` from the Rust source: open the file (`File::open`
fails with an I/O error when the file is missing), read it to a string
(`read_to_string` fails with an I/O error when the bytes are not valid
UTF-8), then parse with `serde_json::from_str` (fails with a parse
error when the text is not valid JSON).  Every failure is returned to
the caller via `?`; nothing is recovered locally.  `from_str` models
the `serde_json` parser, a library function outside this repository. -/
def load_config (fs : String → FileData) (from_str : String → Except String Json)
    (config_file : String) : Except LoadErr Json :=
  match fs config_file with
  | .missing => .error (.ioErr "No such file or directory (os error 2)")
  | .notUtf8 => .error (.ioErr "stream did not contain valid UTF-8")
  | .text contents =>
    match from_str contents with
    | .error msg => .error (.parseErr msg)
    | .ok json => .ok json

/-- Severity of a log line: `error!` or `info!`. -/
inductive Level where
  | info : Level
  | error : Level
deriving DecidableEq

/-- The observable outcome of a run: the log lines emitted, in order,
and the process exit code. -/
structure RunResult where
  logs : List (Level × String)
  exitCode : Nat
deriving DecidableEq

/-- Parameter resolution from `main`: `parameter_1` is looked up and
defaults to the JSON string `"default_value"` when absent
(`unwrap_or`); `parameter_2` is looked up with no default. -/
def resolveParams (config : Json) : Json × Option Json :=
  let default_parameter_1 := Json.str "default_value"
  let parameter_1 := (config.get "parameter_1").getD default_parameter_1
  let parameter_2 := config.get "parameter_2"
  (parameter_1, parameter_2)

/-- The tail of `main` after a successful `load_config`: resolve both
parameters, fail with exit code 1 when `parameter_2` is absent,
otherwise log the resolved values and the two trailing info lines and
exit 0. -/
def processConfig (config : Json) : RunResult :=
  let default_parameter_1 := Json.str "default_value"
  let parameter_1 := (config.get "parameter_1").getD default_parameter_1
  let parameter_2 := config.get "parameter_2"
  match parameter_2 with
  | none =>
      { logs := [(.error, "Error: 'parameter_2' is mandatory but is not provided.")],
        exitCode := 1 }
  | some p2 =>
      { logs := [(.info, "Parameter 1: " ++ parameter_1.render),
                 (.info, "Parameter 2: " ++ p2.render),
                 (.info, "Performing actions based on the configuration..."),
                 (.info, "Configuration evaluation completed successfully.")],
        exitCode := 0 }

/-- `main`: `prog` is `args[0]` (the program name `env::args` always
yields first) and `cmdArgs` the remaining arguments, so the Rust guard
`args.len() != 2` is `cmdArgs.length ≠ 1`.  On a wrong argument count,
log the usage line and exit 1; on a load failure, log it and exit 1;
otherwise run `processConfig`. -/
def mainRun (prog : String) (cmdArgs : List String) (fs : String → FileData)
    (from_str : String → Except String Json) : RunResult :=
  match cmdArgs with
  | [config_file] =>
    match load_config fs from_str config_file with
    | .error e =>
        { logs := [(.error, "Failed to load configuration: " ++ e.message)],
          exitCode := 1 }
    | .ok config => processConfig config
  | _ =>
      { logs := [(.error, "Usage: " ++ prog ++ " <config.json>")],
        exitCode := 1 }

/-! ### Concrete fixtures used by the witnesses -/

/-- A filesystem on which every path is a missing file. -/
def fsMissing : String → FileData := fun _ => .missing

/-- A filesystem on which every path holds bytes that are not valid
UTF-8. -/
def fsNotUtf8 : String → FileData := fun _ => .notUtf8

/-- A filesystem on which every path holds the UTF-8 text `{}`. -/
def fsText : String → FileData := fun _ => .text "\x7b\x7d"

/-- A filesystem holding the UTF-8 text `{}` at `config.json` only; it
agrees with `fsText` at that path but differs elsewhere. -/
def fsText2 : String → FileData :=
  fun path => if path = "config.json" then .text "\x7b\x7d" else .missing

/-- A parser model that rejects every input, as `serde_json::from_str`
does on malformed text. -/
def from_strFail : String → Except String Json :=
  fun _ => .error "expected value at line 1 column 1"

/-- A parser model that accepts every input as the given value. -/
def from_strConst (json : Json) : String → Except String Json :=
  fun _ => .ok json

/-- Document with `parameter_1` present but `parameter_2` absent. -/
def config1 : Json := .obj [("parameter_1", .str "present")]

/-- The example document of the spec with both fields present:
`{"parameter_1": "custom", "parameter_2": 42}`. -/
def config5 : Json := .obj [("parameter_1", .str "custom"), ("parameter_2", .num 42)]

/-- The example document of the spec with only `parameter_2` present:
`{"parameter_2": true}`. -/
def config6 : Json := .obj [("parameter_2", .bool true)]

/-- Document with a non-string `parameter_1` and a null `parameter_2`,
both present. -/
def config10 : Json := .obj [("parameter_1", .arr []), ("parameter_2", .null)]

example : Json.render (.str "custom") = "\"custom\"" := by rfl
example : Json.render (.num 42) = "42" := by rfl
example : Json.render (.bool true) = "true" := by rfl
example : (Json.obj [("parameter_2", .null)]).get "parameter_2" = some .null := by rfl
example : (Json.arr [.num 1]).get "parameter_2" = none := by rfl
example :
    processConfig (.obj [("parameter_1", .str "custom"), ("parameter_2", .num 42)]) =
      { logs := [(.info, "Parameter 1: \"custom\""),
                 (.info, "Parameter 2: 42"),
                 (.info, "Performing actions based on the configuration..."),
                 (.info, "Configuration evaluation completed successfully.")],
        exitCode := 0 } := by rfl

/-! ### Claims -/

/-- C1: for every parsed JSON document that lacks the key
`parameter_2`, the program logs the mandatory-field error line and
terminates with exit code 1, and no default is substituted for
`parameter_2` (its resolution stays `none`); `parameter_1` may or may
not be present. -/
theorem C1_missing_param2 (prog config_file : String) (fs : String → FileData)
    (from_str : String → Except String Json) (config : Json)
    (hload : load_config fs from_str config_file = .ok config)
    (h2 : config.get "parameter_2" = none) :
    mainRun prog [config_file] fs from_str =
      { logs := [(.error, "Error: 'parameter_2' is mandatory but is not provided.")],
        exitCode := 1 } ∧
    (resolveParams config).2 = none := by
  refine ⟨?_, by simpa [resolveParams] using h2⟩
  simp [mainRun, hload, processConfig, h2]

/-- Witness for C1 at a document where `parameter_1` is present. -/
theorem C1_witness :
    load_config fsText (from_strConst config1) "config.json" = .ok config1 ∧
    config1.get "parameter_2" = none ∧
    (mainRun "prog" ["config.json"] fsText (from_strConst config1) =
      { logs := [(.error, "Error: 'parameter_2' is mandatory but is not provided.")],
        exitCode := 1 } ∧
     (resolveParams config1).2 = none) :=
  ⟨rfl, rfl,
   C1_missing_param2 "prog" "config.json" fsText (from_strConst config1) config1 rfl rfl⟩

/-- C2: resolving `parameter_1` always yields a value: the key's value
when present, the JSON string `"default_value"` when absent. -/
theorem C2_resolve_param1 (config : Json) :
    (∀ v, config.get "parameter_1" = some v → (resolveParams config).1 = v) ∧
    (config.get "parameter_1" = none →
      (resolveParams config).1 = Json.str "default_value") := by
  constructor
  · intro v h; simp [resolveParams, h]
  · intro h; simp [resolveParams, h]

/-- Witness for C2: one document with `parameter_1` present, one
without. -/
theorem C2_witness :
    ((Json.obj [("parameter_1", Json.num 7)]).get "parameter_1" = some (Json.num 7) ∧
     (resolveParams (Json.obj [("parameter_1", Json.num 7)])).1 = Json.num 7) ∧
    ((Json.obj []).get "parameter_1" = none ∧
     (resolveParams (Json.obj [])).1 = Json.str "default_value") :=
  ⟨⟨rfl, (C2_resolve_param1 (Json.obj [("parameter_1", Json.num 7)])).1 (Json.num 7) rfl⟩,
   ⟨rfl, (C2_resolve_param1 (Json.obj [])).2 rfl⟩⟩

/-- Whether a `load_config` outcome is a `serde_json` parse error. -/
def loadResultIsParseErr : Except LoadErr Json → Bool
  | .error (.parseErr _) => true
  | _ => false

/-- Counterexample to C3 as stated: on a file whose bytes are not
valid UTF-8, `load_config` returns the I/O error raised by
`read_to_string`, not a parse error. -/
theorem C3_counterexample :
    load_config fsNotUtf8 from_strFail "config.json" =
      .error (.ioErr "stream did not contain valid UTF-8") ∧
    loadResultIsParseErr (load_config fsNotUtf8 from_strFail "config.json") = false :=
  ⟨rfl, rfl⟩

/-- C3 (amended): `load_config` returns the parsed JSON value on
success; a missing or unreadable file yields the underlying I/O error;
contents that are not valid UTF-8 also yield an I/O error (from
`read_to_string`, before the parser runs); valid UTF-8 that is not
valid JSON yields the underlying parse error; every failure is
propagated to the caller and none is recovered inside `load_config`. -/
theorem C3_load_config_cases (fs : String → FileData)
    (from_str : String → Except String Json) (config_file : String) :
    (fs config_file = .missing →
      load_config fs from_str config_file =
        .error (.ioErr "No such file or directory (os error 2)")) ∧
    (fs config_file = .notUtf8 →
      load_config fs from_str config_file =
        .error (.ioErr "stream did not contain valid UTF-8")) ∧
    (∀ contents msg, fs config_file = .text contents → from_str contents = .error msg →
      load_config fs from_str config_file = .error (.parseErr msg)) ∧
    (∀ contents json, fs config_file = .text contents → from_str contents = .ok json →
      load_config fs from_str config_file = .ok json) := by
  refine ⟨fun h => ?_, fun h => ?_, fun contents msg h hp => ?_, fun contents json h hp => ?_⟩
  · simp [load_config, h]
  · simp [load_config, h]
  · simp [load_config, h, hp]
  · simp [load_config, h, hp]

/-- Witness for C3 (amended), exercising all four cases on concrete
filesystems and parser outcomes. -/
theorem C3_witness :
    (fsMissing "config.json" = .missing ∧
     load_config fsMissing from_strFail "config.json" =
       .error (.ioErr "No such file or directory (os error 2)")) ∧
    (fsNotUtf8 "config.json" = .notUtf8 ∧
     load_config fsNotUtf8 from_strFail "config.json" =
       .error (.ioErr "stream did not contain valid UTF-8")) ∧
    (fsText "config.json" = .text "\x7b\x7d" ∧
     from_strFail "\x7b\x7d" = .error "expected value at line 1 column 1" ∧
     load_config fsText from_strFail "config.json" =
       .error (.parseErr "expected value at line 1 column 1")) ∧
    (from_strConst (Json.obj []) "\x7b\x7d" = .ok (Json.obj []) ∧
     load_config fsText (from_strConst (Json.obj [])) "config.json" = .ok (Json.obj [])) :=
  ⟨⟨rfl, (C3_load_config_cases fsMissing from_strFail "config.json").1 rfl⟩,
   ⟨rfl, (C3_load_config_cases fsNotUtf8 from_strFail "config.json").2.1 rfl⟩,
   ⟨rfl, rfl,
    (C3_load_config_cases fsText from_strFail "config.json").2.2.1 "\x7b\x7d"
      "expected value at line 1 column 1" rfl rfl⟩,
   ⟨rfl,
    (C3_load_config_cases fsText (from_strConst (Json.obj [])) "config.json").2.2.2 "\x7b\x7d"
      (Json.obj []) rfl rfl⟩⟩

/-- C4: with an argument count other than exactly one configuration
path, the process logs the usage line and exits 1, and the outcome does
not depend on the filesystem or the parser (no file I/O is
performed). -/
theorem C4_usage (prog : String) (cmdArgs : List String) (fs fs₂ : String → FileData)
    (from_str from_str₂ : String → Except String Json) (h : cmdArgs.length ≠ 1) :
    mainRun prog cmdArgs fs from_str =
      { logs := [(.error, "Usage: " ++ prog ++ " <config.json>")], exitCode := 1 } ∧
    mainRun prog cmdArgs fs from_str = mainRun prog cmdArgs fs₂ from_str₂ := by
  match cmdArgs with
  | [] => exact ⟨rfl, rfl⟩
  | [c] => exact absurd rfl h
  | a :: b :: rest => exact ⟨rfl, rfl⟩

/-- Witness for C4 at two arguments, comparing two unrelated
filesystems and parsers. -/
theorem C4_witness :
    (["a.json", "b.json"] : List String).length ≠ 1 ∧
    (mainRun "prog" ["a.json", "b.json"] fsText (from_strConst config5) =
      { logs := [(.error, "Usage: prog <config.json>")], exitCode := 1 } ∧
     mainRun "prog" ["a.json", "b.json"] fsText (from_strConst config5) =
       mainRun "prog" ["a.json", "b.json"] fsMissing from_strFail) :=
  ⟨by decide,
   C4_usage "prog" ["a.json", "b.json"] fsText fsMissing (from_strConst config5)
     from_strFail (by decide)⟩

/-- Counterexample to C5 as stated: on the spec's own example
`{"parameter_1": "custom", "parameter_2": 42}` the process exits 0 but
no emitted log line reads `parameter_1 = custom` or
`parameter_2 = 42`; the actual lines are `Parameter 1: "custom"` and
`Parameter 2: 42`. -/
theorem C5_counterexample :
    (mainRun "prog" ["config.json"] fsText (from_strConst config5)).exitCode = 0 ∧
    ((mainRun "prog" ["config.json"] fsText (from_strConst config5)).logs.all
      fun line => line.2 != "parameter_1 = custom") = true ∧
    ((mainRun "prog" ["config.json"] fsText (from_strConst config5)).logs.all
      fun line => line.2 != "parameter_2 = 42") = true :=
  ⟨rfl, rfl, rfl⟩

/-- C5 (amended): on valid JSON with both fields present the process
exits 0 and logs `Parameter 1: <v1>` and `Parameter 2: <v2>` with the
values in their JSON serialization (so the example document yields
`Parameter 1: "custom"` and `Parameter 2: 42`), followed by the two
closing info lines. -/
theorem C5_both_present (prog config_file : String) (fs : String → FileData)
    (from_str : String → Except String Json) (config v1 v2 : Json)
    (hload : load_config fs from_str config_file = .ok config)
    (h1 : config.get "parameter_1" = some v1)
    (h2 : config.get "parameter_2" = some v2) :
    mainRun prog [config_file] fs from_str =
      { logs := [(.info, "Parameter 1: " ++ v1.render),
                 (.info, "Parameter 2: " ++ v2.render),
                 (.info, "Performing actions based on the configuration..."),
                 (.info, "Configuration evaluation completed successfully.")],
        exitCode := 0 } := by
  simp [mainRun, hload, processConfig, h1, h2]

/-- Witness for C5 (amended) at the spec's example document. -/
theorem C5_witness :
    load_config fsText (from_strConst config5) "config.json" = .ok config5 ∧
    config5.get "parameter_1" = some (Json.str "custom") ∧
    config5.get "parameter_2" = some (Json.num 42) ∧
    mainRun "prog" ["config.json"] fsText (from_strConst config5) =
      { logs := [(.info, "Parameter 1: \"custom\""),
                 (.info, "Parameter 2: 42"),
                 (.info, "Performing actions based on the configuration..."),
                 (.info, "Configuration evaluation completed successfully.")],
        exitCode := 0 } :=
  ⟨rfl, rfl, rfl,
   C5_both_present "prog" "config.json" fsText (from_strConst config5) config5
     (Json.str "custom") (Json.num 42) rfl rfl rfl⟩

/-- Counterexample to C6 as stated: on the spec's own example
`{"parameter_2": true}` the process exits 0 but no emitted log line
reads `parameter_1 = default_value` or `parameter_2 = true`; the
actual lines are `Parameter 1: "default_value"` and
`Parameter 2: true`. -/
theorem C6_counterexample :
    (mainRun "prog" ["config.json"] fsText (from_strConst config6)).exitCode = 0 ∧
    ((mainRun "prog" ["config.json"] fsText (from_strConst config6)).logs.all
      fun line => line.2 != "parameter_1 = default_value") = true ∧
    ((mainRun "prog" ["config.json"] fsText (from_strConst config6)).logs.all
      fun line => line.2 != "parameter_2 = true") = true :=
  ⟨rfl, rfl, rfl⟩

/-- C6 (amended): on valid JSON with only `parameter_2` present the
process exits 0 and logs `Parameter 1: "default_value"` (the default,
serialized as a JSON string with quotes) and `Parameter 2: <v2>` (so
the example document yields `Parameter 2: true`), followed by the two
closing info lines. -/
theorem C6_only_param2 (prog config_file : String) (fs : String → FileData)
    (from_str : String → Except String Json) (config v2 : Json)
    (hload : load_config fs from_str config_file = .ok config)
    (h1 : config.get "parameter_1" = none)
    (h2 : config.get "parameter_2" = some v2) :
    mainRun prog [config_file] fs from_str =
      { logs := [(.info, "Parameter 1: " ++ (Json.str "default_value").render),
                 (.info, "Parameter 2: " ++ v2.render),
                 (.info, "Performing actions based on the configuration..."),
                 (.info, "Configuration evaluation completed successfully.")],
        exitCode := 0 } := by
  simp [mainRun, hload, processConfig, h1, h2]

/-- Witness for C6 (amended) at the spec's example document. -/
theorem C6_witness :
    load_config fsText (from_strConst config6) "config.json" = .ok config6 ∧
    config6.get "parameter_1" = none ∧
    config6.get "parameter_2" = some (Json.bool true) ∧
    mainRun "prog" ["config.json"] fsText (from_strConst config6) =
      { logs := [(.info, "Parameter 1: \"default_value\""),
                 (.info, "Parameter 2: true"),
                 (.info, "Performing actions based on the configuration..."),
                 (.info, "Configuration evaluation completed successfully.")],
        exitCode := 0 } :=
  ⟨rfl, rfl, rfl,
   C6_only_param2 "prog" "config.json" fsText (from_strConst config6) config6
     (Json.bool true) rfl rfl rfl⟩

/-- C7: the exit code is exactly 1 on a wrong argument count, on a
`load_config` failure, and on a missing `parameter_2`, and exactly 0
when loading succeeds and `parameter_2` is present. -/
theorem C7_exit_codes (prog config_file : String) (fs : String → FileData)
    (from_str : String → Except String Json) :
    (∀ cmdArgs : List String, cmdArgs.length ≠ 1 →
      (mainRun prog cmdArgs fs from_str).exitCode = 1) ∧
    (∀ e, load_config fs from_str config_file = .error e →
      (mainRun prog [config_file] fs from_str).exitCode = 1) ∧
    (∀ config, load_config fs from_str config_file = .ok config →
      config.get "parameter_2" = none →
      (mainRun prog [config_file] fs from_str).exitCode = 1) ∧
    (∀ config v2, load_config fs from_str config_file = .ok config →
      config.get "parameter_2" = some v2 →
      (mainRun prog [config_file] fs from_str).exitCode = 0) := by
  refine ⟨fun cmdArgs h => ?_, fun e h => ?_, fun config hload h2 => ?_,
    fun config v2 hload h2 => ?_⟩
  · match cmdArgs with
    | [] => rfl
    | [c] => exact absurd rfl h
    | a :: b :: rest => rfl
  · simp [mainRun, h]
  · simp [mainRun, hload, processConfig, h2]
  · simp [mainRun, hload, processConfig, h2]

/-- Witness for C7, exercising all four cases: two arguments, a
missing file, a loaded document without `parameter_2`, and a loaded
document with it. -/
theorem C7_witness :
    ((["a.json", "b.json"] : List String).length ≠ 1 ∧
     (mainRun "prog" ["a.json", "b.json"] fsText (from_strConst config5)).exitCode = 1) ∧
    (load_config fsMissing from_strFail "config.json" =
       .error (.ioErr "No such file or directory (os error 2)") ∧
     (mainRun "prog" ["config.json"] fsMissing from_strFail).exitCode = 1) ∧
    (load_config fsText (from_strConst config1) "config.json" = .ok config1 ∧
     config1.get "parameter_2" = none ∧
     (mainRun "prog" ["config.json"] fsText (from_strConst config1)).exitCode = 1) ∧
    (load_config fsText (from_strConst config6) "config.json" = .ok config6 ∧
     config6.get "parameter_2" = some (Json.bool true) ∧
     (mainRun "prog" ["config.json"] fsText (from_strConst config6)).exitCode = 0) :=
  ⟨⟨by decide,
    (C7_exit_codes "prog" "config.json" fsText (from_strConst config5)).1
      ["a.json", "b.json"] (by decide)⟩,
   ⟨rfl,
    (C7_exit_codes "prog" "config.json" fsMissing from_strFail).2.1
      (.ioErr "No such file or directory (os error 2)") rfl⟩,
   ⟨rfl, rfl,
    (C7_exit_codes "prog" "config.json" fsText (from_strConst config1)).2.2.1
      config1 rfl rfl⟩,
   ⟨rfl, rfl,
    (C7_exit_codes "prog" "config.json" fsText (from_strConst config6)).2.2.2
      config6 (Json.bool true) rfl rfl⟩⟩

/-- C8: the loader and parameter resolution are deterministic in the
file contents: two runs against filesystems holding the same contents
at the configuration path that both load successfully yield the same
document and identical resolved values for `parameter_1` and
`parameter_2` (there is no hidden state between runs). -/
theorem C8_deterministic (fs fs₂ : String → FileData)
    (from_str : String → Except String Json) (config_file : String)
    (config config₂ : Json)
    (hsame : fs config_file = fs₂ config_file)
    (h1 : load_config fs from_str config_file = .ok config)
    (h2 : load_config fs₂ from_str config_file = .ok config₂) :
    config = config₂ ∧ resolveParams config = resolveParams config₂ := by
  have heq : load_config fs from_str config_file = load_config fs₂ from_str config_file := by
    simp [load_config, hsame]
  rw [h1, h2] at heq
  cases heq
  exact ⟨rfl, rfl⟩

/-- Witness for C8 on two distinct filesystems that agree at
`config.json`. -/
theorem C8_witness :
    fsText "config.json" = fsText2 "config.json" ∧
    load_config fsText (from_strConst config6) "config.json" = .ok config6 ∧
    load_config fsText2 (from_strConst config6) "config.json" = .ok config6 ∧
    (config6 = config6 ∧ resolveParams config6 = resolveParams config6) :=
  ⟨rfl, rfl, rfl,
   C8_deterministic fsText fsText2 (from_strConst config6) "config.json"
     config6 config6 rfl rfl rfl⟩

/-- C9: when the loaded document is not a JSON object (array, string,
number, boolean or null at top level), key lookup for `parameter_2`
returns nothing, so the process logs the mandatory-field error — not a
parse error — and exits 1. -/
theorem C9_non_object (prog config_file : String) (fs : String → FileData)
    (from_str : String → Except String Json) (config : Json)
    (hload : load_config fs from_str config_file = .ok config)
    (h : config.isObj = false) :
    config.get "parameter_2" = none ∧
    mainRun prog [config_file] fs from_str =
      { logs := [(.error, "Error: 'parameter_2' is mandatory but is not provided.")],
        exitCode := 1 } := by
  have h2 : config.get "parameter_2" = none := by
    cases config <;> simp_all [Json.get, Json.isObj]
  exact ⟨h2, by simp [mainRun, hload, processConfig, h2]⟩

/-- Witness for C9 at a top-level JSON array. -/
theorem C9_witness :
    load_config fsText (from_strConst (Json.arr [Json.num 1])) "config.json" =
      .ok (Json.arr [Json.num 1]) ∧
    (Json.arr [Json.num 1]).isObj = false ∧
    ((Json.arr [Json.num 1]).get "parameter_2" = none ∧
     mainRun "prog" ["config.json"] fsText (from_strConst (Json.arr [Json.num 1])) =
       { logs := [(.error, "Error: 'parameter_2' is mandatory but is not provided.")],
         exitCode := 1 }) :=
  ⟨rfl, rfl,
   C9_non_object "prog" "config.json" fsText (from_strConst (Json.arr [Json.num 1]))
     (Json.arr [Json.num 1]) rfl rfl⟩

/-- C10: the mandatory check tests presence only: a `parameter_2`
present with any value — explicitly including `null` — passes, and a
present `parameter_1` of any JSON type is used as-is with no type
check; the process logs both values and exits 0. -/
theorem C10_presence_not_shape (prog config_file : String) (fs : String → FileData)
    (from_str : String → Except String Json) (config v2 : Json)
    (hload : load_config fs from_str config_file = .ok config)
    (h2 : config.get "parameter_2" = some v2) :
    mainRun prog [config_file] fs from_str =
      { logs := [(.info, "Parameter 1: "
                    ++ ((config.get "parameter_1").getD (Json.str "default_value")).render),
                 (.info, "Parameter 2: " ++ v2.render),
                 (.info, "Performing actions based on the configuration..."),
                 (.info, "Configuration evaluation completed successfully.")],
        exitCode := 0 } := by
  simp [mainRun, hload, processConfig, h2]

/-- Witness for C10 at a document with a null `parameter_2` and an
array-valued `parameter_1`. -/
theorem C10_witness :
    load_config fsText (from_strConst config10) "config.json" = .ok config10 ∧
    config10.get "parameter_2" = some Json.null ∧
    mainRun "prog" ["config.json"] fsText (from_strConst config10) =
      { logs := [(.info, "Parameter 1: []"),
                 (.info, "Parameter 2: null"),
                 (.info, "Performing actions based on the configuration..."),
                 (.info, "Configuration evaluation completed successfully.")],
        exitCode := 0 } :=
  ⟨rfl, rfl,
   C10_presence_not_shape "prog" "config.json" fsText (from_strConst config10)
     config10 Json.null rfl rfl⟩
